import Mathlib

/-!
Shallow embedding of the Overshoot JS SDK's `RealtimeVision` session
coordinator (src/src/client/RealtimeVision.ts) and the parts of its
configuration validation / processing-payload construction that the
repository's test-suite (src/src/client/RealtimeVision.test.ts) exercises.

Numeric configuration values are modelled as rationals (the source uses JS
numbers; every constant appearing in the constraints and tests is an exact
decimal, so ℚ is a faithful carrier).  Fallible operations return `Except`;
the coordinator's externally visible actions (closing the socket, closing
the peer connection, stopping tracks, invoking the caller's callbacks, …)
are recorded in an explicit effect trace, mirroring the call-count spies
the test-suite uses.
-/

namespace Overshoot

/-- Camera facing values accepted by the SDK (`"user" | "environment"`). -/
inductive CameraFacing
  | user
  | environment
deriving DecidableEq, Repr

/-- Video source variants from src/src/client/types.ts (`StreamSource`). -/
inductive StreamSource
  | camera (cameraFacing : CameraFacing)
  | video
  | livekit (url : String) (token : String)
  | screen
deriving DecidableEq, Repr

/-- Model backend selector (`"overshoot" | "gemini"`). -/
inductive ModelBackend
  | overshoot
  | gemini
deriving DecidableEq, Repr

/-- Processing mode (`"clip" | "frame"`). -/
inductive StreamMode
  | clip
  | frame
deriving DecidableEq, Repr

/-- Clip mode processing configuration (`ClipModeProcessing` in
RealtimeVision.ts).  The optional `target_fps` shorthand field is the one
exercised by RealtimeVision.test.ts; the legacy fields are
`sampling_ratio`/`fps` plus the shared `clip_length_seconds`/`delay_seconds`. -/
structure ClipModeProcessing where
  sampling_ratio : Option ℚ := none
  fps : Option ℚ := none
  clip_length_seconds : Option ℚ := none
  delay_seconds : Option ℚ := none
  target_fps : Option ℚ := none
deriving DecidableEq, Repr

/-- Frame mode processing configuration (`FrameModeProcessing`). -/
structure FrameModeProcessing where
  interval_seconds : Option ℚ := none
deriving DecidableEq, Repr

/-- Caller-supplied configuration (`RealtimeVisionConfig`).  The two
callbacks are not data; `hasOnError` records whether the optional `onError`
callback was supplied (`onResult` is required and always present). -/
structure RealtimeVisionConfig where
  apiUrl : String
  apiKey : String
  prompt : String
  source : Option StreamSource := none
  backend : Option ModelBackend := none
  mode : Option StreamMode := none
  clipProcessing : Option ClipModeProcessing := none
  frameProcessing : Option FrameModeProcessing := none
  processing : Option ClipModeProcessing := none
  hasOnError : Bool := true
deriving DecidableEq, Repr

/-- `true` when the optional numeric field is present and lies outside the
closed interval `[lo, hi]` — the shape of every range check in
`validateConfig` (`if (x !== undefined) { if (x < min || x > max) throw }`). -/
def optViolates (x : Option ℚ) (lo hi : ℚ) : Bool :=
  match x with
  | none => false
  | some v => v < lo || v > hi

/-- The four clip-mode range checks of `validateConfig`
(RealtimeVision.ts lines 325–368, repeated for the deprecated `processing`
object at lines 384–427), as ordered (condition, message) pairs. -/
def clipBoundsChecks (p : ClipModeProcessing) : List (Bool × String) :=
  [ (optViolates p.sampling_ratio 0 1, "sampling_ratio must be between 0 and 1"),
    (optViolates p.fps 1 120, "fps must be between 1 and 120"),
    (optViolates p.clip_length_seconds (1/10) 60,
      "clip_length_seconds must be between 0.1 and 60"),
    (optViolates p.delay_seconds 0 60, "delay_seconds must be between 0 and 60") ]

/-- Default clip length (seconds) of the current SDK version.
Modelled from the spec: the `target_rate * clip_length_s ≥ 3` examples use
"default clip length 0.5"; RealtimeVision.test.ts pins the same value. -/
def defaultClipLengthSeconds : ℚ := 1/2

/-- Default delay (seconds) of the current SDK version, as pinned by the
payload tests in RealtimeVision.test.ts. -/
def defaultDelaySeconds : ℚ := 1/2

/-- Default target fps of the current SDK version, as pinned by the payload
tests in RealtimeVision.test.ts (`target_fps: 6` when nothing is supplied). -/
def defaultTargetFps : ℚ := 6

/-- Modelled from the spec: the `target_fps` ("target rate") shorthand checks
of the current `validateConfig`.  This implementation is missing from src/
(only RealtimeVision.test.ts exercises it); the spec states that the
shorthand and any legacy {rate, sampling-fraction} field are mutually
exclusive, and that `target_rate * clip_length_s ≥ 3` must hold using the
default clip length when the caller omits it.  The range bound `[1, 30]` and
the message texts are pinned by RealtimeVision.test.ts. -/
def targetRateChecks (p : ClipModeProcessing) : List (Bool × String) :=
  match p.target_fps with
  | none => []
  | some tf =>
    [ (p.fps.isSome || p.sampling_ratio.isSome,
        "Cannot provide both target_fps and fps/sampling_ratio"),
      (tf < 1 || tf > 30, "target_fps must be between 1 and 30"),
      (tf * (p.clip_length_seconds.getD defaultClipLengthSeconds) < 3,
        "target_fps * clip_length_seconds must be >= 3") ]

/-- Source-descriptor checks of `validateConfig` (lines 292–322).  The
camera-facing and File-instance checks are enforced by this embedding's
types; the livekit url/token non-emptiness checks are value checks.  For a
screen source the current version requires display-capture support
(`displayCaptureSupported`, checked at validation time per the spec). -/
def sourceChecks (src : Option StreamSource) (displayCaptureSupported : Bool) :
    List (Bool × String) :=
  match src with
  | none => []
  | some (.camera _) => []
  | some .video => []
  | some (.livekit url token) =>
    [ (url == "", "livekit source url is required and must be a non-empty string"),
      (token == "", "livekit source token is required and must be a non-empty string") ]
  | some .screen =>
    [ (!displayCaptureSupported, "screen capture is not supported in this environment") ]

/-- Frame-mode range check of `validateConfig` (lines 371–381). -/
def frameChecks (f : Option FrameModeProcessing) : List (Bool × String) :=
  match f with
  | none => []
  | some p =>
    [ (optViolates p.interval_seconds (1/10) 60,
        "interval_seconds must be between 0.1 and 60") ]

/-- All checks of the current `validateConfig`, in source order: required
scalar fields, source checks, `clipProcessing` checks, `frameProcessing`
checks, deprecated `processing` checks.  The range checks are translated
from `validateConfig` in src/src/client/RealtimeVision.ts (lines 267–428);
the `targetRateChecks` portions are modelled from the spec (see that
definition's comment) since the current implementation is absent from src/. -/
def validateChecks (c : RealtimeVisionConfig) (displayCaptureSupported : Bool) :
    List (Bool × String) :=
  [ (c.apiUrl == "", "apiUrl is required and must be a string"),
    (c.apiKey == "", "apiKey is required and must be a string"),
    (c.prompt == "", "prompt is required and must be a string") ]
  ++ sourceChecks c.source displayCaptureSupported
  ++ (match c.clipProcessing with
      | none => []
      | some p => clipBoundsChecks p ++ targetRateChecks p)
  ++ frameChecks c.frameProcessing
  ++ (match c.processing with
      | none => []
      | some p => clipBoundsChecks p ++ targetRateChecks p)

/-- Run an ordered list of (condition, message) checks: the first check whose
condition holds throws its message, otherwise validation succeeds — the
shape of the sequential `if … throw new ValidationError(…)` statements in
`validateConfig`. -/
def firstErr : List (Bool × String) → Except String Unit
  | [] => .ok ()
  | (b, m) :: rest => if b then .error m else firstErr rest

/-- `validateConfig` of the current SDK version (throwing = `Except.error`). -/
def validateConfig (c : RealtimeVisionConfig) (displayCaptureSupported : Bool) :
    Except String Unit :=
  firstErr (validateChecks c displayCaptureSupported)

/-- Errors raised by the coordinator, one constructor per `new Error(...)` /
`new ValidationError(...)` site relevant to the session lifecycle. -/
inductive RVError
  | validation (msg : String)
  | alreadyRunning
  | mediaFailed (msg : String)
  | noVideoTrack
  | registrationFailed (msg : String)
  | keepaliveFailed (inner : String)
  | wsError
  | wsAuthFailed
  | wsClosedUnexpectedly
  | parseFailed (inner : String)
deriving DecidableEq, Repr

/-- The message string the source attaches to each error object. -/
def RVError.message : RVError → String
  | .validation msg => msg
  | .alreadyRunning => "Vision stream already running"
  | .mediaFailed msg => msg
  | .noVideoTrack => "No video track available"
  | .registrationFailed msg => msg
  | .keepaliveFailed inner => "Keepalive failed: " ++ inner
  | .wsError => "WebSocket error occurred"
  | .wsAuthFailed => "WebSocket authentication failed: Invalid or revoked API key"
  | .wsClosedUnexpectedly => "WebSocket closed unexpectedly"
  | .parseFailed inner => "Failed to parse WebSocket message: " ++ inner

/-- Externally visible actions of the coordinator, recorded as a trace
(matching the call-count spies of the test-suite).  `onError` / `onResult`
are invocations of the caller's callbacks; the rest are resource and
network operations. -/
inductive Effect
  | closeStreamServer (id : String)
  | clearKeepalive
  | wsClose
  | pcClose
  | trackStop (id : Nat)
  | cancelCanvasFrame
  | canvasRemove
  | videoRelease
  | acquireMedia
  | createPeerConnection
  | createStream
  | renewLease
  | connectWebSocket
  | onError (e : RVError)
  | onResult
deriving DecidableEq, Repr

/-- The mutable fields of a `RealtimeVision` instance that drive the
lifecycle (RealtimeVision.ts lines 235–244).  A media stream is modelled by
the list of its video-track identifiers; object-valued fields that the code
only null-checks are modelled as Booleans (present / null). -/
structure RVState where
  mediaTracks : Option (List Nat) := none
  peerConnection : Bool := false
  webSocket : Bool := false
  streamId : Option String := none
  keepaliveInterval : Bool := false
  canvasAnimationFrameId : Bool := false
  canvasElement : Bool := false
  videoElement : Bool := false
  isRunning : Bool := false
deriving DecidableEq, Repr

/-- The freshly constructed coordinator: every resource field `null`,
`isRunning = false` (the Idle state). -/
def rvInit : RVState := {}

/-- `cleanup` (RealtimeVision.ts lines 928–984): best-effort server close
when a stream id exists (failures are swallowed, so success and failure
leave the same local state), then each local resource is released under its
own null-guard and its field nulled, and finally the stream id is cleared.
Returns the new state and the trace of release actions actually performed. -/
def cleanup (s : RVState) : RVState × List Effect :=
  let e1 : List Effect :=
    match s.streamId with
    | some id => [.closeStreamServer id]
    | none => []
  let e2 : List Effect := if s.keepaliveInterval then [.clearKeepalive] else []
  let e3 : List Effect := if s.webSocket then [.wsClose] else []
  let e4 : List Effect := if s.peerConnection then [.pcClose] else []
  let e5 : List Effect :=
    match s.mediaTracks with
    | some ts => ts.map Effect.trackStop
    | none => []
  let e6 : List Effect := if s.canvasAnimationFrameId then [.cancelCanvasFrame] else []
  let e7 : List Effect := if s.canvasElement then [.canvasRemove] else []
  let e8 : List Effect := if s.videoElement then [.videoRelease] else []
  ({ mediaTracks := none, peerConnection := false, webSocket := false,
     streamId := none, keepaliveInterval := false, canvasAnimationFrameId := false,
     canvasElement := false, videoElement := false, isRunning := s.isRunning },
   e1 ++ e2 ++ e3 ++ e4 ++ e5 ++ e6 ++ e7 ++ e8)

/-- `stop()` (lines 901–905): run `cleanup`, then set `isRunning = false`. -/
def stop (s : RVState) : RVState × List Effect :=
  let (s', es) := cleanup s
  ({ s' with isRunning := false }, es)

/-- `n` successive `stop()` calls, accumulating the release trace. -/
def stopN : Nat → RVState → RVState × List Effect
  | 0, s => (s, [])
  | n + 1, s =>
    let (s1, e1) := stop s
    let (s2, e2) := stopN n s1
    (s2, e1 ++ e2)

/-- `handleFatalError` (lines 868–879): `cleanup`, set `isRunning = false`,
then invoke the caller's `onError` callback (when supplied) with the error. -/
def handleFatalError (s : RVState) (hasOnError : Bool) (e : RVError) :
    RVState × List Effect :=
  let (s', es) := cleanup s
  ({ s' with isRunning := false },
   es ++ (if hasOnError then [.onError e] else []))

/-- `handleNonFatalError` (lines 858–863): report via `onError` (when
supplied) and change nothing else. -/
def handleNonFatalError (s : RVState) (hasOnError : Bool) (e : RVError) :
    RVState × List Effect :=
  (s, if hasOnError then [.onError e] else [])

/-- One firing of the keepalive timer callback (lines 788–801): when a
stream id exists, attempt exactly one `renewLease` request; on failure wrap
the failure message in a keepalive-specific error and run
`handleFatalError`.  `renewOk` is the outcome of the renewal request and
`failMsg` the message of the failure it would report. -/
def keepaliveTick (s : RVState) (renewOk : Bool) (hasOnError : Bool)
    (failMsg : String) : RVState × List Effect :=
  match s.streamId with
  | none => (s, [])
  | some _ =>
    if renewOk then (s, [.renewLease])
    else
      let (s', es) := handleFatalError s hasOnError (.keepaliveFailed failMsg)
      (s', .renewLease :: es)

/-- The WebSocket `onmessage` handler (lines 818–828): the whole body —
parsing the inbound frame and invoking the caller's `onResult` callback —
sits in one `try`; any exception (parse failure, or `onResult` itself
throwing) is caught and reported through `handleNonFatalError` with the
"Failed to parse WebSocket message" wrapper.  Being a total function into
(state × trace), the handler never propagates the exception.  `parseOk`
says whether `JSON.parse` succeeded, `onResultThrows` whether the caller's
callback threw, `innerMsg` the message of whichever exception occurred. -/
def wsOnMessage (s : RVState) (parseOk onResultThrows hasOnError : Bool)
    (innerMsg : String) : RVState × List Effect :=
  if parseOk then
    if onResultThrows then
      let (s', es) := handleNonFatalError s hasOnError (.parseFailed innerMsg)
      (s', .onResult :: es)
    else
      (s, [.onResult])
  else
    handleNonFatalError s hasOnError (.parseFailed innerMsg)

/-- The WebSocket `onerror` handler (lines 830–834): always fatal. -/
def wsOnErrorHandler (s : RVState) (hasOnError : Bool) : RVState × List Effect :=
  handleFatalError s hasOnError .wsError

/-- The WebSocket `onclose` handler (lines 836–852): if the session is still
logically active (`isRunning`), close code 1008 is a fatal auth error and
every other code a fatal "closed unexpectedly" error; when not running the
close is expected and ignored. -/
def wsOnClose (s : RVState) (code : Nat) (hasOnError : Bool) :
    RVState × List Effect :=
  if s.isRunning then
    if code = 1008 then handleFatalError s hasOnError .wsAuthFailed
    else handleFatalError s hasOnError .wsClosedUnexpectedly
  else
    (s, [])

/-- `constructor(config)` (lines 246–262): run `validateConfig`, then store
the config, create the `Logger`, warn (console only) about the deprecated
`processing` field, and create the `StreamClient` — of which only
`validateConfig` can throw and none performs a network or media call (the
`StreamClient` constructor merely stores its base URL and key).  Hence the
effect trace of construction is empty on both outcomes. -/
def construct (c : RealtimeVisionConfig) (displayCaptureSupported : Bool) :
    List Effect × Except String RVState :=
  match validateConfig c displayCaptureSupported with
  | .error m => ([], .error m)
  | .ok () => ([], .ok rvInit)

/-- `getMode` (lines 606–617): explicit mode wins; otherwise frame mode iff
`frameProcessing.interval_seconds` is set; otherwise clip mode. -/
def getMode (c : RealtimeVisionConfig) : StreamMode :=
  match c.mode with
  | some m => m
  | none =>
    if (c.frameProcessing.bind (fun f => f.interval_seconds)).isSome then .frame
    else .clip

/-- The registration payload's `processing` object: each parameterization is
its own constructor, so a payload can never mix the `target_fps` shorthand
with the legacy `fps`/`sampling_ratio` pair. -/
inductive StreamProcessingConfig
  | clipTarget (target_fps clip_length_seconds delay_seconds : ℚ)
  | clipLegacy (sampling_ratio fps clip_length_seconds delay_seconds : ℚ)
  | frame (interval_seconds : ℚ)
deriving DecidableEq, Repr

/-- Modelled from the spec: `getProcessingConfig` of the current SDK version
(the implementation is absent from src/; the src copy at lines 622–643
predates the `target_fps` shorthand).  Frame mode fills in the interval
default; clip mode takes `clipProcessing`, falling back to the deprecated
`processing` object, and emits the legacy payload exactly when a legacy
field (`fps` or `sampling_ratio`) was supplied — filling `fps` from the
detected stream rate — and otherwise the `target_fps` payload with the
defaults pinned by RealtimeVision.test.ts. -/
def getProcessingConfig (c : RealtimeVisionConfig) (detectedFps : ℚ) :
    StreamProcessingConfig :=
  match getMode c with
  | .frame =>
    let f := c.frameProcessing.getD {}
    .frame (f.interval_seconds.getD 2)
  | .clip =>
    let p := c.clipProcessing.getD (c.processing.getD {})
    if p.fps.isSome || p.sampling_ratio.isSome then
      .clipLegacy (p.sampling_ratio.getD (1/10)) (p.fps.getD detectedFps)
        (p.clip_length_seconds.getD defaultClipLengthSeconds)
        (p.delay_seconds.getD defaultDelaySeconds)
    else
      .clipTarget (p.target_fps.getD defaultTargetFps)
        (p.clip_length_seconds.getD defaultClipLengthSeconds)
        (p.delay_seconds.getD defaultDelaySeconds)

/-- Environment for one `start()` call: the outcomes of the asynchronous
operations the pipeline performs (media acquisition, registration) and the
values the server returns. -/
structure StartEnv where
  mediaOk : Bool := true
  tracks : List Nat := [0]
  canvasFallback : Bool := false
  registrationOk : Bool := true
  serverStreamId : String := "stream-1"
  leaseTtl : Option ℚ := none
deriving DecidableEq, Repr

/-- `start()` (lines 655–775).  The guard `if (this.isRunning) throw` comes
before the `try` block, so a coordinator that is already running throws
immediately with an empty effect trace.  Otherwise the pipeline runs in
source order — for non-relay sources: acquire media (a file source loads a
video element, with an optional canvas fallback), require a video track,
create the peer connection and local offer, register with the server,
install the keepalive timer when a lease TTL was returned, connect the
WebSocket, and finally set `isRunning = true`.  A livekit (relay) source
skips acquisition and transport.  Any pipeline failure runs
`handleFatalError` (teardown + `onError`) and rethrows. -/
def start (s : RVState) (c : RealtimeVisionConfig) (env : StartEnv) :
    RVState × List Effect × Except RVError Unit :=
  if s.isRunning then
    (s, [], .error .alreadyRunning)
  else
    let source := c.source.getD (.camera .environment)
    match source with
    | .livekit _ _ =>
      if env.registrationOk then
        ({ s with
            streamId := some env.serverStreamId,
            keepaliveInterval := env.leaseTtl.isSome,
            webSocket := true,
            isRunning := true },
         [.createStream, .connectWebSocket], .ok ())
      else
        let err := RVError.registrationFailed "stream registration failed"
        let (s', es) := handleFatalError s c.hasOnError err
        (s', .createStream :: es, .error err)
    | src =>
      if !env.mediaOk then
        let err := RVError.mediaFailed "failed to create media stream"
        let (s', es) := handleFatalError s c.hasOnError err
        (s', .acquireMedia :: es, .error err)
      else
        let isVideoFile := src = StreamSource.video
        let s1 := { s with
                    mediaTracks := some env.tracks,
                    videoElement := isVideoFile,
                    canvasElement := isVideoFile && env.canvasFallback,
                    canvasAnimationFrameId := isVideoFile && env.canvasFallback }
        if env.tracks = [] then
          let (s', es) := handleFatalError s1 c.hasOnError .noVideoTrack
          (s', .acquireMedia :: es, .error .noVideoTrack)
        else
          let s2 := { s1 with peerConnection := true }
          if env.registrationOk then
            ({ s2 with
                streamId := some env.serverStreamId,
                keepaliveInterval := env.leaseTtl.isSome,
                webSocket := true,
                isRunning := true },
             [.acquireMedia, .createPeerConnection, .createStream,
              .connectWebSocket], .ok ())
          else
            let err := RVError.registrationFailed "stream registration failed"
            let (s', es) := handleFatalError s2 c.hasOnError err
            (s', [.acquireMedia, .createPeerConnection, .createStream] ++ es,
             .error err)

/-- `true` exactly on invocations of the caller's error callback. -/
def isOnErrorEffect : Effect → Bool
  | .onError _ => true
  | _ => false

/-- Number of error-callback invocations in a trace. -/
def countOnError (es : List Effect) : Nat :=
  (es.filter isOnErrorEffect).length

/-- A valid base configuration, mirroring `baseConfig` of
RealtimeVision.test.ts (livekit source, so no browser media APIs). -/
def baseCfg : RealtimeVisionConfig :=
  { apiUrl := "https://api.overshoot.ai", apiKey := "test-key",
    prompt := "test prompt",
    source := some (.livekit "wss://test.example.com" "tok") }

/-- Clip shorthand config `{target_fps: 10, clip_length_seconds: 3,
delay_seconds: 1}` with a camera source. -/
def cfgShorthandClip : RealtimeVisionConfig :=
  { baseCfg with
    source := some (.camera .environment),
    clipProcessing := some { target_fps := some 10, clip_length_seconds := some 3,
                             delay_seconds := some 1 } }

/-- Legacy clip config `{fps: 30, sampling_ratio: 0.5}`. -/
def cfgLegacyClip : RealtimeVisionConfig :=
  { baseCfg with
    clipProcessing := some { fps := some 30, sampling_ratio := some (1/2) } }

/-- `{target_fps: 5}` with the default clip length (5 · 0.5 = 2.5 < 3). -/
def cfgTarget5 : RealtimeVisionConfig :=
  { baseCfg with clipProcessing := some { target_fps := some 5 } }

/-- `{target_fps: 6}` with the default clip length (6 · 0.5 = 3 ≥ 3). -/
def cfgTarget6 : RealtimeVisionConfig :=
  { baseCfg with clipProcessing := some { target_fps := some 6 } }

/-- A representative Active-session state: one media track, live peer
connection and socket, a server stream id, keepalive installed. -/
def runState : RVState :=
  { mediaTracks := some [7], peerConnection := true, webSocket := true,
    streamId := some "sid", keepaliveInterval := true, isRunning := true }

/-- `{target_fps: 10, fps: 30, clip_length_seconds: 3}`: the shorthand
together with a legacy field. -/
def cfgTargetAndFps : RealtimeVisionConfig :=
  { baseCfg with
    clipProcessing := some { target_fps := some 10, fps := some 30,
                             clip_length_seconds := some 3 } }

/-- A configuration value violating one of the documented closed-interval
bounds (sampling_ratio ∈ [0,1], fps ∈ [1,120], clip_length_seconds ∈
[0.1,60], delay_seconds ∈ [0,60], interval_seconds ∈ [0.1,60]) in the
clip config, the deprecated processing config or the frame config, or the
documented shorthand/legacy mutual-exclusion rule. -/
def ViolatesDocumentedRule (c : RealtimeVisionConfig) : Prop :=
  (∃ p, (c.clipProcessing = some p ∨ c.processing = some p) ∧
    ((∃ v, p.sampling_ratio = some v ∧ (v < 0 ∨ 1 < v)) ∨
     (∃ v, p.fps = some v ∧ (v < 1 ∨ 120 < v)) ∨
     (∃ v, p.clip_length_seconds = some v ∧ (v < 1/10 ∨ 60 < v)) ∨
     (∃ v, p.delay_seconds = some v ∧ (v < 0 ∨ 60 < v)) ∨
     (p.target_fps.isSome = true ∧
       (p.fps.isSome = true ∨ p.sampling_ratio.isSome = true)))) ∨
  (∃ f v, c.frameProcessing = some f ∧ f.interval_seconds = some v ∧
    (v < 1/10 ∨ 60 < v))

lemma trackStop_injective : Function.Injective Effect.trackStop := by
  intro a b h
  injection h

lemma count_map_trackStop (ts : List Nat) (t : Nat) :
    (ts.map Effect.trackStop).count (Effect.trackStop t) = ts.count t :=
  List.count_map_of_injective ts Effect.trackStop trackStop_injective t

lemma count_map_trackStop_eq_zero (ts : List Nat) (e : Effect)
    (h : ∀ t, e ≠ Effect.trackStop t) :
    (ts.map Effect.trackStop).count e = 0 := by
  rw [List.count_eq_zero]
  intro hm
  rcases List.mem_map.mp hm with ⟨t, _, rfl⟩
  exact h t rfl

lemma countOnError_append (a b : List Effect) :
    countOnError (a ++ b) = countOnError a + countOnError b := by
  simp [countOnError, List.filter_append]

lemma countOnError_map_trackStop (ts : List Nat) :
    countOnError (ts.map Effect.trackStop) = 0 := by
  induction ts with
  | nil => rfl
  | cons t ts ih => simp [countOnError, isOnErrorEffect] at ih ⊢

lemma count_map_trackStop_wsClose (ts : List Nat) :
    (ts.map Effect.trackStop).count Effect.wsClose = 0 :=
  count_map_trackStop_eq_zero ts _ (fun _ h => Effect.noConfusion h)

lemma count_map_trackStop_pcClose (ts : List Nat) :
    (ts.map Effect.trackStop).count Effect.pcClose = 0 :=
  count_map_trackStop_eq_zero ts _ (fun _ h => Effect.noConfusion h)

lemma count_map_trackStop_renewLease (ts : List Nat) :
    (ts.map Effect.trackStop).count Effect.renewLease = 0 :=
  count_map_trackStop_eq_zero ts _ (fun _ h => Effect.noConfusion h)

/-- `cleanup` leaves every resource field cleared and `isRunning` untouched. -/
lemma cleanup_fst (s : RVState) :
    (cleanup s).1 = { rvInit with isRunning := s.isRunning } := rfl

lemma cleanup_count_wsClose (s : RVState) :
    (cleanup s).2.count Effect.wsClose = (if s.webSocket then 1 else 0) := by
  obtain ⟨mt, pc, ws, sid, ki, caf, ce, ve, ir⟩ := s
  cases mt <;> cases sid <;>
    simp [cleanup, List.count_append, List.count_cons, count_map_trackStop_wsClose] <;>
    rcases pc <;> rcases ws <;> rcases ki <;> rcases caf <;> rcases ce <;> rcases ve <;>
    simp

lemma cleanup_count_pcClose (s : RVState) :
    (cleanup s).2.count Effect.pcClose = (if s.peerConnection then 1 else 0) := by
  obtain ⟨mt, pc, ws, sid, ki, caf, ce, ve, ir⟩ := s
  cases mt <;> cases sid <;>
    simp [cleanup, List.count_append, List.count_cons, count_map_trackStop_pcClose] <;>
    rcases pc <;> rcases ws <;> rcases ki <;> rcases caf <;> rcases ce <;> rcases ve <;>
    simp

lemma cleanup_count_trackStop (s : RVState) (t : Nat) :
    (cleanup s).2.count (Effect.trackStop t) = (s.mediaTracks.getD []).count t := by
  obtain ⟨mt, pc, ws, sid, ki, caf, ce, ve, ir⟩ := s
  cases mt <;> cases sid <;>
    simp [cleanup, List.count_append, List.count_cons, count_map_trackStop] <;>
    rcases pc <;> rcases ws <;> rcases ki <;> rcases caf <;> rcases ce <;> rcases ve <;>
    simp

lemma cleanup_countOnError (s : RVState) :
    countOnError (cleanup s).2 = 0 := by
  obtain ⟨mt, pc, ws, sid, ki, caf, ce, ve, ir⟩ := s
  cases mt <;> cases sid <;>
    simp [cleanup, countOnError_append, countOnError_map_trackStop,
      countOnError, isOnErrorEffect]

lemma cleanup_count_renewLease (s : RVState) :
    (cleanup s).2.count Effect.renewLease = 0 := by
  obtain ⟨mt, pc, ws, sid, ki, caf, ce, ve, ir⟩ := s
  cases mt <;> cases sid <;>
    simp [cleanup, List.count_append, List.count_cons, count_map_trackStop_renewLease] <;>
    rcases pc <;> rcases ws <;> rcases ki <;> rcases caf <;> rcases ce <;> rcases ve <;>
    simp

lemma stop_fst (s : RVState) : (stop s).1 = rvInit := rfl

lemma stop_snd (s : RVState) : (stop s).2 = (cleanup s).2 := rfl

lemma stop_rvInit : stop rvInit = (rvInit, []) := rfl

lemma stopN_rvInit (n : Nat) : stopN n rvInit = (rvInit, []) := by
  induction n with
  | zero => rfl
  | succ n ih => simp [stopN, stop_rvInit, ih]

lemma handleFatalError_fst (s : RVState) (h : Bool) (e : RVError) :
    (handleFatalError s h e).1 = rvInit := rfl

lemma handleFatalError_eq (s : RVState) (e : RVError) :
    handleFatalError s true e = (rvInit, (cleanup s).2 ++ [Effect.onError e]) := rfl

lemma countOnError_cons (e : Effect) (es : List Effect) :
    countOnError (e :: es) = (if isOnErrorEffect e then 1 else 0) + countOnError es := by
  simp only [countOnError, List.filter_cons]
  split <;> simp [Nat.add_comm]

lemma countOnError_singleton_onError (e : RVError) :
    countOnError [Effect.onError e] = 1 := rfl

lemma countOnError_nil : countOnError [] = 0 := rfl

/-- C1: for every session and any number of `stop()` calls, local resource
release happens exactly once — across repeated `stop()` calls the result
channel (WebSocket) close, the transport (peer connection) close, and each
media track's stop are each invoked exactly once, every `stop()` after the
first is a no-op, and the coordinator ends in the stopped state with
`isRunning = false` (and every resource field cleared, i.e. `rvInit`). -/
theorem stop_releases_exactly_once (s : RVState) (ts : List Nat) (n : Nat)
    (hts : s.mediaTracks = some ts) (hnd : ts.Nodup)
    (hws : s.webSocket = true) (hpc : s.peerConnection = true)
    (hn : 1 ≤ n) :
    stopN n s = stop s ∧
    (stop s).2.count Effect.wsClose = 1 ∧
    (stop s).2.count Effect.pcClose = 1 ∧
    (∀ t ∈ ts, (stop s).2.count (Effect.trackStop t) = 1) ∧
    stop (stop s).1 = ((stop s).1, []) ∧
    (stop s).1 = rvInit ∧
    (stop s).1.isRunning = false := by
  refine ⟨?_, ?_, ?_, ?_, ?_, stop_fst s, by rw [stop_fst]; rfl⟩
  · cases n with
    | zero => omega
    | succ m =>
      have hfst := stop_fst s
      rcases hs : stop s with ⟨s1, e1⟩
      rw [hs] at hfst
      simp only at hfst
      subst hfst
      simp [stopN, hs, stopN_rvInit]
  · rw [stop_snd, cleanup_count_wsClose, hws]
    rfl
  · rw [stop_snd, cleanup_count_pcClose, hpc]
    rfl
  · intro t ht
    rw [stop_snd, cleanup_count_trackStop, hts]
    exact List.count_eq_one_of_mem hnd ht
  · rw [stop_fst]
    exact stop_rvInit

/-- C1 witness: an active session with track 7 and live socket, transport
and keepalive; two `stop()` calls behave as one. -/
theorem stop_releases_exactly_once_witness :
    stopN 2 runState = stop runState ∧
    (stop runState).2.count Effect.wsClose = 1 ∧
    (stop runState).2.count Effect.pcClose = 1 ∧
    (∀ t ∈ [7], (stop runState).2.count (Effect.trackStop t) = 1) ∧
    stop (stop runState).1 = ((stop runState).1, []) ∧
    (stop runState).1 = rvInit ∧
    (stop runState).1.isRunning = false :=
  stop_releases_exactly_once runState [7] 2 rfl (by decide) rfl rfl (by decide)

/-- C2: while the session is Active, a failed lease-renewal (keepalive)
request is fatal — the tick performs exactly one renewal attempt (no
retry), closes the result channel and the transport, stops every media
track, invokes the caller's error callback exactly once and with the
keepalive-specific error, clears the state (so a further timer firing does
nothing), and leaves `isRunning = false`. -/
theorem keepalive_failure_is_fatal (s : RVState) (id : String) (ts : List Nat)
    (msg : String)
    (hsid : s.streamId = some id) (_hrun : s.isRunning = true)
    (hws : s.webSocket = true) (hpc : s.peerConnection = true)
    (hts : s.mediaTracks = some ts) (hnd : ts.Nodup) :
    (keepaliveTick s false true msg).2.count Effect.renewLease = 1 ∧
    (keepaliveTick s false true msg).2.count Effect.wsClose = 1 ∧
    (keepaliveTick s false true msg).2.count Effect.pcClose = 1 ∧
    (∀ t ∈ ts, (keepaliveTick s false true msg).2.count (Effect.trackStop t) = 1) ∧
    countOnError (keepaliveTick s false true msg).2 = 1 ∧
    Effect.onError (RVError.keepaliveFailed msg) ∈ (keepaliveTick s false true msg).2 ∧
    keepaliveTick (keepaliveTick s false true msg).1 false true msg
      = ((keepaliveTick s false true msg).1, []) ∧
    (keepaliveTick s false true msg).1.isRunning = false := by
  have hT : keepaliveTick s false true msg
      = (rvInit, .renewLease :: ((cleanup s).2 ++ [.onError (.keepaliveFailed msg)])) := by
    simp [keepaliveTick, hsid, handleFatalError_eq]
  rw [hT]
  refine ⟨?_, ?_, ?_, ?_, ?_, ?_, rfl, rfl⟩
  · simp [List.count_cons, List.count_append, cleanup_count_renewLease]
  · simp [List.count_cons, List.count_append, cleanup_count_wsClose, hws]
  · simp [List.count_cons, List.count_append, cleanup_count_pcClose, hpc]
  · intro t ht
    simp [List.count_cons, List.count_append, cleanup_count_trackStop, hts]
    exact List.count_eq_one_of_mem hnd ht
  · simp [countOnError_cons, countOnError_append, cleanup_countOnError,
      countOnError_singleton_onError, countOnError_nil, isOnErrorEffect]
  · simp

/-- C2 witness: the keepalive tick failing on the concrete active session. -/
theorem keepalive_failure_is_fatal_witness :
    (keepaliveTick runState false true "boom").2.count Effect.renewLease = 1 ∧
    (keepaliveTick runState false true "boom").2.count Effect.wsClose = 1 ∧
    (keepaliveTick runState false true "boom").2.count Effect.pcClose = 1 ∧
    (∀ t ∈ [7], (keepaliveTick runState false true "boom").2.count (Effect.trackStop t) = 1) ∧
    countOnError (keepaliveTick runState false true "boom").2 = 1 ∧
    Effect.onError (RVError.keepaliveFailed "boom") ∈ (keepaliveTick runState false true "boom").2 ∧
    keepaliveTick (keepaliveTick runState false true "boom").1 false true "boom"
      = ((keepaliveTick runState false true "boom").1, []) ∧
    (keepaliveTick runState false true "boom").1.isRunning = false :=
  keepalive_failure_is_fatal runState "sid" [7] "boom" rfl rfl rfl rfl rfl (by decide)

/-- C3: a result-channel close while still logically Active with the
authentication-rejection code 1008 invokes the error callback exactly once
with the auth-specific error and tears the session down; a close while
Active with any other code invokes it exactly once with the generic
"closed unexpectedly" error and tears down; a close arriving after `stop()`
has already run invokes no callback and changes nothing. -/
theorem ws_close_code_dispatch (s : RVState) (code : Nat) :
    (s.isRunning = true → code = 1008 →
      countOnError (wsOnClose s code true).2 = 1 ∧
      Effect.onError RVError.wsAuthFailed ∈ (wsOnClose s code true).2 ∧
      (wsOnClose s code true).1 = rvInit) ∧
    (s.isRunning = true → code ≠ 1008 →
      countOnError (wsOnClose s code true).2 = 1 ∧
      Effect.onError RVError.wsClosedUnexpectedly ∈ (wsOnClose s code true).2 ∧
      (wsOnClose s code true).1 = rvInit) ∧
    (∀ s₀ : RVState, wsOnClose (stop s₀).1 code true = ((stop s₀).1, [])) := by
  refine ⟨?_, ?_, ?_⟩
  · intro hrun hcode
    have h : wsOnClose s code true = handleFatalError s true .wsAuthFailed := by
      simp [wsOnClose, hrun, hcode]
    rw [h, handleFatalError_eq]
    refine ⟨?_, by simp, rfl⟩
    simp [countOnError_append, cleanup_countOnError, countOnError_singleton_onError]
  · intro hrun hcode
    have h : wsOnClose s code true = handleFatalError s true .wsClosedUnexpectedly := by
      simp [wsOnClose, hrun, hcode]
    rw [h, handleFatalError_eq]
    refine ⟨?_, by simp, rfl⟩
    simp [countOnError_append, cleanup_countOnError, countOnError_singleton_onError]
  · intro s₀
    rw [stop_fst]
    rfl

/-- C3 witness: code 1008 and code 1006 on the active session; code 1006
after `stop()`. -/
theorem ws_close_code_dispatch_witness :
    (countOnError (wsOnClose runState 1008 true).2 = 1 ∧
      Effect.onError RVError.wsAuthFailed ∈ (wsOnClose runState 1008 true).2 ∧
      (wsOnClose runState 1008 true).1 = rvInit) ∧
    (countOnError (wsOnClose runState 1006 true).2 = 1 ∧
      Effect.onError RVError.wsClosedUnexpectedly ∈ (wsOnClose runState 1006 true).2 ∧
      (wsOnClose runState 1006 true).1 = rvInit) ∧
    wsOnClose (stop runState).1 1006 true = ((stop runState).1, []) :=
  ⟨(ws_close_code_dispatch runState 1008).1 rfl rfl,
   (ws_close_code_dispatch runState 1006).2.1 rfl (by decide),
   (ws_close_code_dispatch runState 1006).2.2 runState⟩

/-- C9: an inbound result-channel message that fails to parse is reported
through the caller's error callback as a non-fatal parse error: the state
is unchanged (channel still open, session still Active), the trace contains
exactly one error-callback invocation and no close/stop action; by
contrast the channel-level `onerror` handler does tear the session down. -/
theorem malformed_message_nonfatal (s : RVState) (b : Bool) (msg : String) :
    wsOnMessage s false b true msg = (s, [Effect.onError (RVError.parseFailed msg)]) ∧
    countOnError (wsOnMessage s false b true msg).2 = 1 ∧
    (wsOnMessage s false b true msg).1 = s ∧
    (wsOnMessage s false b true msg).2.count Effect.wsClose = 0 ∧
    (wsOnMessage s false b true msg).2.count Effect.pcClose = 0 ∧
    (∀ t : Nat, (wsOnMessage s false b true msg).2.count (Effect.trackStop t) = 0) ∧
    (wsOnErrorHandler s true).1 = rvInit := by
  refine ⟨rfl, ?_, rfl, ?_, ?_, ?_, handleFatalError_fst s true .wsError⟩ <;>
    simp [wsOnMessage, handleNonFatalError, countOnError, isOnErrorEffect]

/-- C10: if the caller's own `onResult` callback throws on a successfully
parsed message, the exception is caught inside the `onmessage` handler
(which returns normally) and reported to `onError` as a non-fatal
"Failed to parse WebSocket message" error; the state is unchanged, so the
channel stays open and no teardown happens. -/
theorem onresult_exception_contained (s : RVState) (msg : String) :
    wsOnMessage s true true true msg
      = (s, [Effect.onResult, Effect.onError (RVError.parseFailed msg)]) ∧
    (RVError.parseFailed msg).message = "Failed to parse WebSocket message: " ++ msg ∧
    countOnError (wsOnMessage s true true true msg).2 = 1 ∧
    (wsOnMessage s true true true msg).2.count Effect.wsClose = 0 ∧
    (wsOnMessage s true true true msg).1 = s := by
  refine ⟨rfl, rfl, ?_, ?_, rfl⟩ <;>
    simp [wsOnMessage, handleNonFatalError, countOnError, isOnErrorEffect]

lemma firstErr_ok_iff (l : List (Bool × String)) :
    firstErr l = .ok () ↔ ∀ p ∈ l, p.1 = false := by
  induction l with
  | nil => simp [firstErr]
  | cons hd tl ih =>
    obtain ⟨b, m⟩ := hd
    cases b <;> simp [firstErr, ih]

lemma firstErr_error_of_mem {l : List (Bool × String)} {m : String}
    (h : (true, m) ∈ l) : ∃ m', firstErr l = .error m' := by
  induction l with
  | nil => cases h
  | cons hd tl ih =>
    obtain ⟨b, s⟩ := hd
    cases b
    · rcases List.mem_cons.mp h with he | ht
      · cases he
      · simpa [firstErr] using ih ht
    · exact ⟨s, rfl⟩

lemma validateConfig_error_of_check {c : RealtimeVisionConfig} {d : Bool}
    (q : Bool × String) (hq : q ∈ validateChecks c d) (ht : q.1 = true) :
    ∃ m, validateConfig c d = Except.error m := by
  obtain ⟨b, m⟩ := q
  simp only at ht
  subst ht
  exact firstErr_error_of_mem hq

lemma mem_validateChecks_clip {c : RealtimeVisionConfig} {p : ClipModeProcessing}
    (d : Bool) (h : c.clipProcessing = some p) {q : Bool × String}
    (hq : q ∈ clipBoundsChecks p ++ targetRateChecks p) :
    q ∈ validateChecks c d := by
  simp only [validateChecks, h, List.mem_append] at *
  tauto

lemma mem_validateChecks_processing {c : RealtimeVisionConfig}
    {p : ClipModeProcessing} (d : Bool) (h : c.processing = some p)
    {q : Bool × String} (hq : q ∈ clipBoundsChecks p ++ targetRateChecks p) :
    q ∈ validateChecks c d := by
  simp only [validateChecks, h, List.mem_append] at *
  tauto

lemma mem_validateChecks_frame {c : RealtimeVisionConfig}
    {f : FrameModeProcessing} (d : Bool) (h : c.frameProcessing = some f)
    {q : Bool × String} (hq : q ∈ frameChecks (some f)) :
    q ∈ validateChecks c d := by
  simp only [validateChecks, h, List.mem_append] at *
  tauto

lemma mem_validateChecks_clipOr {c : RealtimeVisionConfig}
    {p : ClipModeProcessing} (d : Bool)
    (h : c.clipProcessing = some p ∨ c.processing = some p)
    {q : Bool × String} (hq : q ∈ clipBoundsChecks p ++ targetRateChecks p) :
    q ∈ validateChecks c d := by
  rcases h with h | h
  · exact mem_validateChecks_clip d h hq
  · exact mem_validateChecks_processing d h hq

lemma construct_fst (c : RealtimeVisionConfig) (d : Bool) :
    (construct c d).1 = [] := by
  rcases h : validateConfig c d with m | u <;> simp [construct, h]

lemma construct_error_of_validate {c : RealtimeVisionConfig} {d : Bool}
    {m : String} (h : validateConfig c d = .error m) :
    (construct c d).2 = .error m := by
  simp [construct, h]

lemma validate_ok_of_construct {c : RealtimeVisionConfig} {d : Bool}
    {st : RVState} (h : (construct c d).2 = .ok st) :
    validateConfig c d = .ok () := by
  rcases hv : validateConfig c d with m | u
  · simp [construct, hv] at h
  · cases u
    rfl

/-- C4: any configuration violating a documented closed-interval bound
(sampling_ratio ∈ [0,1], fps ∈ [1,120], clip_length_seconds ∈ [0.1,60],
delay_seconds ∈ [0,60], interval_seconds ∈ [0.1,60]) or the documented
shorthand/legacy mutual-exclusion rule is rejected by construction with a
validation error, and the constructor's effect trace is empty — no network
or media call happens before (or after) the throw; validation is purely
computational. -/
theorem invalid_config_rejected_without_side_effects
    (c : RealtimeVisionConfig) (d : Bool) (h : ViolatesDocumentedRule c) :
    (construct c d).1 = [] ∧ ∃ m, (construct c d).2 = Except.error m := by
  refine ⟨construct_fst c d, ?_⟩
  have hv : ∃ m, validateConfig c d = Except.error m := by
    rcases h with ⟨p, hp, hviol⟩ | ⟨f, v, hf, hfi, hb⟩
    · rcases hviol with ⟨v, hv1, hb⟩ | ⟨v, hv1, hb⟩ | ⟨v, hv1, hb⟩ | ⟨v, hv1, hb⟩
        | ⟨htf, hleg⟩
      · refine validateConfig_error_of_check _
          (mem_validateChecks_clipOr d hp (q :=
            (optViolates p.sampling_ratio 0 1,
              "sampling_ratio must be between 0 and 1")) ?_) ?_
        · simp [clipBoundsChecks]
        · simpa [optViolates, hv1] using hb
      · refine validateConfig_error_of_check _
          (mem_validateChecks_clipOr d hp (q :=
            (optViolates p.fps 1 120, "fps must be between 1 and 120")) ?_) ?_
        · simp [clipBoundsChecks]
        · simpa [optViolates, hv1] using hb
      · refine validateConfig_error_of_check _
          (mem_validateChecks_clipOr d hp (q :=
            (optViolates p.clip_length_seconds (1/10) 60,
              "clip_length_seconds must be between 0.1 and 60")) ?_) ?_
        · simp [clipBoundsChecks]
        · simpa [optViolates, hv1] using hb
      · refine validateConfig_error_of_check _
          (mem_validateChecks_clipOr d hp (q :=
            (optViolates p.delay_seconds 0 60,
              "delay_seconds must be between 0 and 60")) ?_) ?_
        · simp [clipBoundsChecks]
        · simpa [optViolates, hv1] using hb
      · obtain ⟨tf, htf'⟩ := Option.isSome_iff_exists.mp htf
        refine validateConfig_error_of_check _
          (mem_validateChecks_clipOr d hp (q :=
            (p.fps.isSome || p.sampling_ratio.isSome,
              "Cannot provide both target_fps and fps/sampling_ratio")) ?_) ?_
        · simp [targetRateChecks, htf']
        · simpa using hleg
    · refine validateConfig_error_of_check _
        (mem_validateChecks_frame d hf (q :=
          (optViolates f.interval_seconds (1/10) 60,
            "interval_seconds must be between 0.1 and 60")) ?_) ?_
      · simp [frameChecks]
      · simpa [optViolates, hfi] using hb
  obtain ⟨m, hm⟩ := hv
  exact ⟨m, construct_error_of_validate hm⟩

/-- C4 witness: `{clipProcessing: {fps: 200}}` violates the fps bound and is
rejected with an empty effect trace. -/
theorem invalid_config_rejected_without_side_effects_witness :
    (construct { baseCfg with clipProcessing := some { fps := some 200 } } true).1 = [] ∧
    ∃ m, (construct { baseCfg with clipProcessing := some { fps := some 200 } } true).2
      = Except.error m :=
  invalid_config_rejected_without_side_effects _ true
    (Or.inl ⟨{ fps := some 200 }, Or.inl rfl,
      Or.inr (Or.inl ⟨200, rfl, by norm_num⟩)⟩)

/-- C5: supplying the `target_fps` shorthand together with any legacy clip
field (`fps` or `sampling_ratio`) is rejected by construction with a
validation error, whether the clip config is given via `clipProcessing` or
via the deprecated `processing` field. -/
theorem shorthand_legacy_exclusion_rejected
    (c : RealtimeVisionConfig) (p : ClipModeProcessing) (d : Bool)
    (hp : c.clipProcessing = some p ∨ c.processing = some p)
    (htf : p.target_fps.isSome = true)
    (hleg : p.fps.isSome = true ∨ p.sampling_ratio.isSome = true) :
    ∃ m, (construct c d).2 = Except.error m := by
  obtain ⟨tf, htf'⟩ := Option.isSome_iff_exists.mp htf
  have hv : ∃ m, validateConfig c d = Except.error m := by
    refine validateConfig_error_of_check _
      (mem_validateChecks_clipOr d hp (q :=
        (p.fps.isSome || p.sampling_ratio.isSome,
          "Cannot provide both target_fps and fps/sampling_ratio")) ?_) ?_
    · simp [targetRateChecks, htf']
    · simpa using hleg
  obtain ⟨m, hm⟩ := hv
  exact ⟨m, construct_error_of_validate hm⟩

/-- C5 witness: `{target_fps: 10, fps: 30, clip_length_seconds: 3}` is
rejected. -/
theorem shorthand_legacy_exclusion_rejected_witness :
    ∃ m, (construct cfgTargetAndFps true).2 = Except.error m :=
  shorthand_legacy_exclusion_rejected cfgTargetAndFps
    { target_fps := some 10, fps := some 30, clip_length_seconds := some 3 }
    true (Or.inl rfl) rfl (Or.inl rfl)

/-- C6: with the `target_fps` shorthand, construction succeeds only if
`target_fps` times the effective clip length (the explicit
`clip_length_seconds`, or the default clip length 0.5 when omitted) is at
least 3; in particular `{target_fps: 5}` with the default clip length is
rejected with the min-frames error (2.5 < 3) and `{target_fps: 6}` is
accepted (3.0 ≥ 3). -/
theorem min_frames_constraint :
    (∀ (c : RealtimeVisionConfig) (p : ClipModeProcessing) (tf : ℚ) (d : Bool)
        (st : RVState),
      (c.clipProcessing = some p ∨ c.processing = some p) →
      p.target_fps = some tf →
      (construct c d).2 = Except.ok st →
      3 ≤ tf * p.clip_length_seconds.getD defaultClipLengthSeconds) ∧
    (construct cfgTarget5 true).2
      = Except.error "target_fps * clip_length_seconds must be >= 3" ∧
    (construct cfgTarget6 true).2 = Except.ok rvInit := by
  refine ⟨?_,
    by norm_num [construct, validateConfig, validateChecks, firstErr,
        clipBoundsChecks, targetRateChecks, sourceChecks, frameChecks,
        optViolates, cfgTarget5, baseCfg, defaultClipLengthSeconds]
       rfl,
    by norm_num [construct, validateConfig, validateChecks, firstErr,
        clipBoundsChecks, targetRateChecks, sourceChecks, frameChecks,
        optViolates, cfgTarget6, baseCfg, defaultClipLengthSeconds]
       rfl⟩
  intro c p tf d st hp htf hok
  have hall := (firstErr_ok_iff (validateChecks c d)).mp (validate_ok_of_construct hok)
  have hmem : ((tf * p.clip_length_seconds.getD defaultClipLengthSeconds < 3 : Bool),
      "target_fps * clip_length_seconds must be >= 3") ∈ validateChecks c d := by
    refine mem_validateChecks_clipOr d hp ?_
    simp [targetRateChecks, htf]
  have hfalse := hall _ hmem
  simp only [decide_eq_false_iff_not, not_lt] at hfalse
  exact hfalse

/-- C6 witness: instantiating the min-frames bound at the accepted
`{target_fps: 6}` configuration. -/
theorem min_frames_constraint_witness :
    3 ≤ (6 : ℚ) * (({ target_fps := some 6 } :
      ClipModeProcessing).clip_length_seconds.getD defaultClipLengthSeconds) :=
  min_frames_constraint.1 cfgTarget6 { target_fps := some 6 } 6 true rvInit
    (Or.inl rfl) rfl min_frames_constraint.2.2

/-- C7: the registration payload's processing object is exactly the caller's
chosen clip parameterization with defaults filled in and never mixes
parameterizations: the shorthand config `{target_fps: 10,
clip_length_seconds: 3, delay_seconds: 1}` yields exactly
`clipTarget 10 3 1` (no legacy fields), the legacy config `{fps: 30,
sampling_ratio: 0.5}` yields exactly those two values plus the default
clip length and delay (no `target_fps` field), and in general a clip-mode
payload is of the `target_fps` shape iff no legacy field was supplied. -/
theorem processing_payload_exact :
    (∀ fps : ℚ, getProcessingConfig cfgShorthandClip fps
      = StreamProcessingConfig.clipTarget 10 3 1) ∧
    (∀ fps : ℚ, getProcessingConfig cfgLegacyClip fps
      = StreamProcessingConfig.clipLegacy (1/2) 30 defaultClipLengthSeconds
          defaultDelaySeconds) ∧
    (∀ (c : RealtimeVisionConfig) (p : ClipModeProcessing) (fps : ℚ),
      getMode c = .clip → c.clipProcessing = some p →
      ((p.fps = none ∧ p.sampling_ratio = none) ↔
        ∃ t cl dl, getProcessingConfig c fps
          = StreamProcessingConfig.clipTarget t cl dl)) := by
  refine ⟨fun fps => rfl, fun fps => rfl, ?_⟩
  intro c p fps hm hp
  constructor
  · rintro ⟨hf, hs⟩
    exact ⟨p.target_fps.getD defaultTargetFps,
      p.clip_length_seconds.getD defaultClipLengthSeconds,
      p.delay_seconds.getD defaultDelaySeconds,
      by simp [getProcessingConfig, hm, hp, hf, hs]⟩
  · rintro ⟨t, cl, dl, h⟩
    rcases hf : p.fps with _ | a
    · rcases hs : p.sampling_ratio with _ | b
      · exact ⟨rfl, rfl⟩
      · simp [getProcessingConfig, hm, hp, hf, hs] at h
    · simp [getProcessingConfig, hm, hp, hf] at h

/-- C7 witness: the shorthand config indeed produces a `target_fps`-shaped
payload. -/
theorem processing_payload_exact_witness :
    ∃ t cl dl, getProcessingConfig cfgShorthandClip 30
      = StreamProcessingConfig.clipTarget t cl dl :=
  (processing_payload_exact.2.2 cfgShorthandClip
      { target_fps := some 10, clip_length_seconds := some 3,
        delay_seconds := some 1 } 30 rfl rfl).mp ⟨rfl, rfl⟩

/-- C8: `start()` is only permitted from the Idle state: when the
coordinator is already running, `start()` throws "already running"
immediately with an empty effect trace (no media acquisition, no
registration), and a successful `start()` leaves the coordinator running —
hence a second `start()` without an intervening `stop()` throws without
re-running acquisition or registration. -/
theorem start_requires_idle :
    (∀ (s : RVState) (c : RealtimeVisionConfig) (env : StartEnv),
      s.isRunning = true →
      start s c env = (s, [], Except.error RVError.alreadyRunning)) ∧
    (∀ (s : RVState) (c : RealtimeVisionConfig) (env : StartEnv)
        (s' : RVState) (es : List Effect),
      start s c env = (s', es, Except.ok ()) → s'.isRunning = true) := by
  constructor
  · intro s c env h
    simp [start, h]
  · intro s c env s' es h
    unfold start at h
    split at h
    · simp at h
    · rcases hsrc : c.source.getD (.camera .environment) with f | _ | ⟨u, tk⟩ | _ <;>
        rw [hsrc] at h <;>
        cases hmed : env.mediaOk <;>
        cases hreg : env.registrationOk <;>
        by_cases htr : env.tracks = [] <;>
        simp [hmed, hreg, htr, Prod.mk.injEq] at h
      all_goals obtain ⟨h1, -⟩ := h
      all_goals subst h1
      all_goals rfl

/-- C8 witness: a successful `start()` from Idle followed by a second
`start()`; the second call throws with an empty trace. -/
theorem start_requires_idle_witness :
    start (start rvInit baseCfg {}).1 baseCfg {}
      = ((start rvInit baseCfg {}).1, [], Except.error RVError.alreadyRunning) :=
  start_requires_idle.1 _ baseCfg {}
    (start_requires_idle.2 rvInit baseCfg {} (start rvInit baseCfg {}).1
      (start rvInit baseCfg {}).2.1 rfl)

end Overshoot
